import Mathlib

/-!
Shallow embedding of `src/other/bootstrap_daemon/src/tox-bootstrapd.c`
(the Tox DHT bootstrap daemon) and proofs about its configuration
pipeline, key management, daemonization and lifecycle loop.

File I/O, libconfig parsing and the network engine are modelled by
explicit parameters (file contents as `Option (List Nat)`, parsed
settings as option-valued records, engine behaviour as boolean oracles);
the control flow of each embedded function follows the C source.
-/

namespace ToxBootstrapd

/-! ### Constants from the source (`#define` lines 62-75) -/

def MIN_ALLOWED_PORT : Int := 1

def MAX_ALLOWED_PORT : Int := 65535

def DEFAULT_PORT : Int := 33445

/-- `DEFAULT_TCP_RELAY_PORTS 443, 3389, 33445` (line 69). -/
def DEFAULT_TCP_RELAY_PORTS : List Int := [443, 3389, 33445]

def DEFAULT_PID_FILE_PATH : String := "tox-bootstrapd.pid"

def DEFAULT_KEYS_FILE_PATH : String := "tox-bootstrapd.keys"

def DEFAULT_ENABLE_IPV6 : Bool := true

def DEFAULT_ENABLE_IPV4_FALLBACK : Bool := true

def DEFAULT_ENABLE_LAN_DISCOVERY : Bool := true

def DEFAULT_ENABLE_TCP_RELAY : Bool := true

def DEFAULT_ENABLE_MOTD : Bool := true

/-- Modelled from the spec: `DAEMON_NAME` comes from `global.h`, which is not
part of the source tree here; it is the daemon's name, used as the
documented default MOTD text (`#define DEFAULT_MOTD DAEMON_NAME`, line 72).
Its concrete value is immaterial to every claim. -/
def DAEMON_NAME : String := "tox-bootstrapd"

/-- `#define DEFAULT_MOTD DAEMON_NAME` (line 72). -/
def DEFAULT_MOTD : String := DAEMON_NAME

/-! ### Port checks

`main` (lines 658-661) checks the configured listen port, which is a C
`int`, directly against `MIN_ALLOWED_PORT`/`MAX_ALLOWED_PORT`.

`parse_tcp_relay_ports_config` (lines 210-217) first stores the
`config_setting_get_int` value into a `uint16_t` array slot — a C
conversion that reduces the value modulo 2^16 — and range-checks the
stored 16-bit value, not the original `int`. -/

/-- The listen-port acceptance check in `main` (lines 658-661):
`port < MIN_ALLOWED_PORT || port > MAX_ALLOWED_PORT` exits; acceptance
is the negation. -/
def listen_port_ok (port : Int) : Bool :=
  !(port < MIN_ALLOWED_PORT || port > MAX_ALLOWED_PORT)

/-- C conversion of an `int` value to `uint16_t`: reduction modulo 2^16.
`Int.emod` with a positive modulus lands in `[0, 65536)`. -/
def to_uint16 (v : Int) : Nat := (v.emod 65536).toNat

/-- The relay-port acceptance check in `parse_tcp_relay_ports_config`
(lines 210-217): the value is first truncated into the `uint16_t` array
slot, then the stored value is checked against
`MIN_ALLOWED_PORT`/`MAX_ALLOWED_PORT`. -/
def relay_port_accepted (v : Int) : Bool :=
  let stored : Int := (to_uint16 v : Int)
  !(stored < MIN_ALLOWED_PORT || stored > MAX_ALLOWED_PORT)

/-! ### manage_keys (lines 83-123)

The key file is modelled as `Option (List Nat)` (`none` = `fopen "r"`
fails, i.e. no file). `fread(keys, 1, KEYS_SIZE, f)` returns
`min contents.length KEYS_SIZE` and yields the first bytes of the file.
The write path is parametrized by whether `fopen "w"` succeeds and by
how many bytes `fwrite` manages to write (`fwrite_cap`): a short write
leaves a partial file behind and returns 0, as in the source. -/

structure DHTKeys where
  self_public_key : List Nat
  self_secret_key : List Nat
deriving Repr, DecidableEq

structure KeysResult where
  ret : Nat
  dht : DHTKeys
  file : Option (List Nat)
deriving Repr, DecidableEq

/-- `manage_keys` (lines 83-123). `pubLen`, `secLen` stand for
`crypto_box_PUBLICKEYBYTES` and `crypto_box_SECRETKEYBYTES` (32 each in
the NaCl library the source links against); everything is relative to
`KEYS_SIZE = pubLen + secLen`. -/
def manage_keys (pubLen secLen : Nat) (fopen_w_ok : Bool) (fwrite_cap : Nat)
    (file : Option (List Nat)) (dht : DHTKeys) : KeysResult :=
  let KEYS_SIZE := pubLen + secLen
  match file with
  | some contents =>
      -- fread returns the number of bytes actually available, capped at KEYS_SIZE
      let read_size := min contents.length KEYS_SIZE
      if read_size ≠ KEYS_SIZE then
        { ret := 0, dht := dht, file := file }
      else
        -- memcpy from the buffer: first pubLen bytes, then the next secLen bytes
        { ret := 1,
          dht := { self_public_key := contents.take pubLen,
                   self_secret_key := (contents.drop pubLen).take secLen },
          file := file }
  | none =>
      -- memcpy(keys, dht->self_public_key, pubLen); memcpy(keys + pubLen, ..., secLen)
      let keys := dht.self_public_key.take pubLen ++ dht.self_secret_key.take secLen
      if fopen_w_ok then
        let write_size := min fwrite_cap KEYS_SIZE
        if write_size ≠ KEYS_SIZE then
          { ret := 0, dht := dht, file := some (keys.take write_size) }
        else
          { ret := 1, dht := dht, file := some keys }
      else
        { ret := 0, dht := dht, file := none }

/-! ### parse_tcp_relay_ports_config (lines 131-229)

A libconfig array element is either a number (with its `int` value) or
something else; `config_setting_is_number` guards `config_setting_get_int`.
The `tcp_relay_ports` setting is absent, present-but-not-an-array, or an
array of elements. -/

inductive ConfigElem where
  | nonNumber : ConfigElem
  | num (v : Int) : ConfigElem
deriving Repr, DecidableEq

inductive PortsSetting where
  | absent : PortsSetting
  | notArray : PortsSetting
  | array (elems : List ConfigElem) : PortsSetting
deriving Repr, DecidableEq

/-- The element loop of `parse_tcp_relay_ports_config` (lines 196-220):
non-numbers are skipped with a warning; a numeric value is stored into a
`uint16_t` slot (truncation) and kept only if the stored value passes the
range check. Order is preserved; the collected ports are the stored
16-bit values. -/
def collect_relay_ports : List ConfigElem → List Nat
  | [] => []
  | .nonNumber :: rest => collect_relay_ports rest
  | .num v :: rest =>
      if relay_port_accepted v then to_uint16 v :: collect_relay_ports rest
      else collect_relay_ports rest

/-- `parse_tcp_relay_ports_config` (lines 131-229), as the list of ports
collected into `tcp_relay_ports` (its length is `tcp_relay_port_count`):
* setting absent (lines 139-177): the default port list is run through
  the same store-and-check loop;
* present but not an array (lines 179-183): error logged, zero ports,
  no default substituted;
* an empty array (lines 187-190): error logged, zero ports;
* otherwise the element loop (the explicit empty-array early return
  collects the same zero ports as the loop on no elements). -/
def parse_tcp_relay_ports_config : PortsSetting → List Nat
  | .absent => collect_relay_ports (DEFAULT_TCP_RELAY_PORTS.map ConfigElem.num)
  | .notArray => []
  | .array elems => collect_relay_ports elems

/-! ### get_general_config (lines 240-392)

A parsed configuration file is a record of optional settings: `none`
models "no setting of that name with the required type", since
`config_lookup_int`/`_string`/`_bool` return `CONFIG_FALSE` both for a
missing setting and for one of the wrong type. The whole file is
`Option ConfigFile`: `none` models `config_read_file` failing. -/

structure ConfigFile where
  port : Option Int
  pid_file_path : Option String
  keys_file_path : Option String
  enable_ipv6 : Option Bool
  enable_ipv4_fallback : Option Bool
  enable_lan_discovery : Option Bool
  enable_tcp_relay : Option Bool
  tcp_relay_ports : PortsSetting
  enable_motd : Option Bool
  motd : Option String
deriving Repr, DecidableEq

/-- A `ConfigFile` in which every setting is absent (an empty but
parseable settings file). -/
def emptyConfigFile : ConfigFile :=
  { port := none, pid_file_path := none, keys_file_path := none,
    enable_ipv6 := none, enable_ipv4_fallback := none,
    enable_lan_discovery := none, enable_tcp_relay := none,
    tcp_relay_ports := .absent, enable_motd := none, motd := none }

/-- The MOTD buffer built at lines 352-356: `tmp_motd_length = strlen+1`,
`motd_length = min(tmp_motd_length, MAX_MOTD_LENGTH)`, `strncpy` into a
`motd_length` buffer, then `motd[motd_length-1] = 0`. The result is the
byte content of the buffer including the terminator. `maxMotd` stands
for `MAX_MOTD_LENGTH` (a positive constant from `global.h`). -/
def motd_value (maxMotd : Nat) (tmp_motd : String) : List Char :=
  let tmp_motd_length := tmp_motd.length + 1
  let motd_length := if tmp_motd_length > maxMotd then maxMotd else tmp_motd_length
  tmp_motd.toList.take (motd_length - 1) ++ [Char.ofNat 0]

/-- The out-parameters of `get_general_config` after a successful run
(`tcp_relay_port_count` is the length of `tcp_relay_ports`; `motd` is
only set when `enable_motd` holds). -/
structure GeneralConfig where
  pid_file_path : String
  keys_file_path : String
  port : Int
  enable_ipv6 : Bool
  enable_ipv4_fallback : Bool
  enable_lan_discovery : Bool
  enable_tcp_relay : Bool
  tcp_relay_ports : List Nat
  enable_motd : Bool
  motd : Option (List Char)
deriving Repr, DecidableEq

/-- `get_general_config` (lines 240-392): returns `none` (the `return 0`
at line 263) exactly when `config_read_file` fails; otherwise each
option is looked up, defaulted when absent, relay ports are parsed only
when `enable_tcp_relay` resolves true (lines 328-332), and the MOTD is
looked up, defaulted and clamped only when `enable_motd` resolves true
(lines 342-357). -/
def get_general_config (maxMotd : Nat) (file : Option ConfigFile) :
    Option GeneralConfig :=
  match file with
  | none => none
  | some cfg =>
      let port := cfg.port.getD DEFAULT_PORT
      let pid_file_path := cfg.pid_file_path.getD DEFAULT_PID_FILE_PATH
      let keys_file_path := cfg.keys_file_path.getD DEFAULT_KEYS_FILE_PATH
      let enable_ipv6 := cfg.enable_ipv6.getD DEFAULT_ENABLE_IPV6
      let enable_ipv4_fallback := cfg.enable_ipv4_fallback.getD DEFAULT_ENABLE_IPV4_FALLBACK
      let enable_lan_discovery := cfg.enable_lan_discovery.getD DEFAULT_ENABLE_LAN_DISCOVERY
      let enable_tcp_relay := cfg.enable_tcp_relay.getD DEFAULT_ENABLE_TCP_RELAY
      let tcp_relay_ports :=
        if enable_tcp_relay then parse_tcp_relay_ports_config cfg.tcp_relay_ports
        else []
      let enable_motd := cfg.enable_motd.getD DEFAULT_ENABLE_MOTD
      let motd :=
        if enable_motd then some (motd_value maxMotd (cfg.motd.getD DEFAULT_MOTD))
        else none
      some { pid_file_path := pid_file_path, keys_file_path := keys_file_path,
             port := port, enable_ipv6 := enable_ipv6,
             enable_ipv4_fallback := enable_ipv4_fallback,
             enable_lan_discovery := enable_lan_discovery,
             enable_tcp_relay := enable_tcp_relay,
             tcp_relay_ports := tcp_relay_ports,
             enable_motd := enable_motd, motd := motd }

/-! #### Out-parameter write trace (for error atomicity)

`get_general_config` communicates through pointer out-parameters; to
state that the failure return happens before any of them is assigned,
the same control flow is traced as the ordered list of out-parameter
stores the C code performs. One event is recorded per out-parameter at
its first assignment, in source order. -/

inductive WriteEvent where
  | port | pid_file_path | keys_file_path | enable_ipv6 | enable_ipv4_fallback
  | enable_lan_discovery | enable_tcp_relay | tcp_relay_port_count
  | tcp_relay_ports | enable_motd | motd
deriving Repr, DecidableEq

/-- The return value of `get_general_config` (1/0) together with the
ordered trace of out-parameter stores. On the `config_read_file` failure
path (lines 260-264) the function returns 0 having stored nothing. On
the success path every scalar is stored in source order (either by the
lookup or by the default assignment); inside
`parse_tcp_relay_ports_config`, `tcp_relay_port_count` is stored first
(line 135) and `tcp_relay_ports` is first stored at the `malloc` —
reached when the setting is absent (line 152) or a non-empty array
(line 192), not when it is of the wrong type or empty; `motd` is stored
only when `enable_motd` resolves true. -/
def get_general_config_writes (file : Option ConfigFile) :
    Nat × List WriteEvent :=
  match file with
  | none => (0, [])
  | some cfg =>
      let enable_tcp_relay := cfg.enable_tcp_relay.getD DEFAULT_ENABLE_TCP_RELAY
      let enable_motd := cfg.enable_motd.getD DEFAULT_ENABLE_MOTD
      let relayWrites :=
        if enable_tcp_relay then
          match cfg.tcp_relay_ports with
          | .absent => [WriteEvent.tcp_relay_port_count, WriteEvent.tcp_relay_ports]
          | .notArray => [WriteEvent.tcp_relay_port_count]
          | .array elems =>
              if elems.length = 0 then [WriteEvent.tcp_relay_port_count]
              else [WriteEvent.tcp_relay_port_count, WriteEvent.tcp_relay_ports]
        else [WriteEvent.tcp_relay_port_count]
      (1, [WriteEvent.port, WriteEvent.pid_file_path, WriteEvent.keys_file_path,
           WriteEvent.enable_ipv6, WriteEvent.enable_ipv4_fallback,
           WriteEvent.enable_lan_discovery, WriteEvent.enable_tcp_relay]
          ++ relayWrites ++ [WriteEvent.enable_motd]
          ++ (if enable_motd then [WriteEvent.motd] else []))

/-- The TCP-relay gate in `main` (lines 729-733): with relay enabled and
zero relay ports read, the daemon logs an error and exits 1. `true`
means startup proceeds past this check. -/
def main_tcp_relay_check (enable_tcp_relay : Bool) (tcp_relay_port_count : Nat) : Bool :=
  !(enable_tcp_relay && tcp_relay_port_count == 0)

/-! ### bootstrap_from_config (lines 399-500)

A bootstrap node entry holds its three looked-up settings as options
(`none` = `config_setting_lookup_*` returned `CONFIG_FALSE`, i.e. the
field is missing or of the wrong type). The `bootstrap_nodes` setting
is absent or a list of entries; the whole file is again an `Option`.
`DHT_bootstrap_from_address` — the engine's resolution call — is an
oracle on the address string and the IPv6 preference. -/

structure NodeEntry where
  public_key : Option String
  port : Option Int
  address : Option String
deriving Repr, DecidableEq

inductive EntryOutcome where
  | missingPublicKey | missingPort | missingAddress
  | badPublicKeyLength | badPort | addressUnresolved
  | added
deriving Repr, DecidableEq

/-- The per-entry body of the `while` loop in `bootstrap_from_config`
(lines 448-487), with the source's check order: presence of
`public_key`, `port`, `address` (lines 449-462); public-key string
length exactly `crypto_box_PUBLICKEYBYTES * 2` (line 465); port range
(line 471, on the `int` value directly); address resolution via the
engine (lines 477-485). The first failing check skips the entry. -/
def process_node (pubKeyLen : Nat) (resolves : String → Bool → Bool)
    (enable_ipv6 : Bool) (node : NodeEntry) : EntryOutcome :=
  match node.public_key with
  | none => .missingPublicKey
  | some bs_public_key =>
    match node.port with
    | none => .missingPort
    | some bs_port =>
      match node.address with
      | none => .missingAddress
      | some bs_address =>
        if bs_public_key.length ≠ pubKeyLen * 2 then .badPublicKeyLength
        else if bs_port < MIN_ALLOWED_PORT || bs_port > MAX_ALLOWED_PORT then .badPort
        else if !(resolves bs_address enable_ipv6) then .addressUnresolved
        else .added

inductive NodesSetting where
  | absent : NodesSetting
  | present (nodes : List NodeEntry) : NodesSetting
deriving Repr, DecidableEq

/-- `bootstrap_from_config` (lines 399-500): returns 0 only when
`config_read_file` fails (`cfg = none`); a missing `bootstrap_nodes`
setting (lines 419-423) or an empty list (lines 425-429) returns 1 with
no entry processed. Otherwise the destructive `while` loop processes
element 0 and removes it until the list is empty — i.e. every entry in
declaration order — and returns 1. The second component is the ordered
list of per-entry outcomes. -/
def bootstrap_from_config (pubKeyLen : Nat) (resolves : String → Bool → Bool)
    (enable_ipv6 : Bool) (cfg : Option NodesSetting) : Nat × List EntryOutcome :=
  match cfg with
  | none => (0, [])
  | some .absent => (1, [])
  | some (.present nodes) =>
      (1, nodes.map (process_node pubKeyLen resolves enable_ipv6))

/-! ### Networking construction with IPv4 fallback (`main`, lines 671-691) -/

/-- Outcome of the networking-construction block of `main`:
which address families `new_networking` was attempted with (in order),
whether a network core was obtained, and the exit code when startup
terminates here. -/
structure NetInitOutcome where
  attempts : List Bool
  success : Bool
  exit_code : Option Nat
deriving Repr, DecidableEq

/-- `main` lines 671-691: `new_networking` is first attempted with the
configured `enable_ipv6` family (`net_ok` is the engine oracle: does
construction succeed for that family). On failure, exactly when both
`enable_ipv6` and `enable_ipv4_fallback` are set, one fallback attempt
is made with IPv6 disabled; a failed fallback, or a failure with the
fallback not configured, returns 1 from `main`. -/
def net_init (enable_ipv6 enable_ipv4_fallback : Bool) (net_ok : Bool → Bool) :
    NetInitOutcome :=
  if net_ok enable_ipv6 then
    { attempts := [enable_ipv6], success := true, exit_code := none }
  else if enable_ipv6 && enable_ipv4_fallback then
    if net_ok false then
      { attempts := [enable_ipv6, false], success := true, exit_code := none }
    else
      { attempts := [enable_ipv6, false], success := false, exit_code := some 1 }
  else
    { attempts := [enable_ipv6], success := false, exit_code := some 1 }

/-! ### Daemonization (`main`, lines 757-805) -/

inductive LogBackend where
  | syslog | stdout
deriving Repr, DecidableEq

/-- Observable outcome of the fork/daemonization block for the process
at hand: `exit_code = some c` means `main` returns `c` here,
`exit_code = none` means execution continues into the service loop.
`pid_written` is the value `fprintf`-ed into the already-open PID file
handle. -/
structure DaemonizeOutcome where
  exit_code : Option Nat
  pid_written : Option Int
  session_created : Bool
  workdir_changed : Bool
  streams_closed : Bool
deriving Repr, DecidableEq

/-- `main` lines 768-805: `fork_result` is what `fork()` returned in
this process (positive = parent holding the child's pid, zero = child,
negative = failure). The parent writes the child's pid into the open
handle and returns 0 (lines 771-775); a negative fork returns 1 (lines
780-783); the child creates a new session (`setsid`, lines 789-792),
changes its working directory to "/" (lines 795-798) — each failure
returning 1 — and closes stdin/stdout/stderr unless the stdout log
backend was selected (lines 801-805). -/
def daemonize (fork_result : Int) (setsid_ok chdir_ok : Bool)
    (log_backend : LogBackend) : DaemonizeOutcome :=
  if fork_result > 0 then
    { exit_code := some 0, pid_written := some fork_result,
      session_created := false, workdir_changed := false, streams_closed := false }
  else if fork_result < 0 then
    { exit_code := some 1, pid_written := none,
      session_created := false, workdir_changed := false, streams_closed := false }
  else if !setsid_ok then
    { exit_code := some 1, pid_written := none,
      session_created := false, workdir_changed := false, streams_closed := false }
  else if !chdir_ok then
    { exit_code := some 1, pid_written := none,
      session_created := true, workdir_changed := false, streams_closed := false }
  else
    { exit_code := none, pid_written := none,
      session_created := true, workdir_changed := true,
      streams_closed := log_backend != LogBackend.stdout }

/-! ### Lifecycle loop (`main`, lines 807-837)

The loop's connection-state logic: `waiting_for_dht_connection` starts
at 1 (line 810); each iteration, if still waiting and `DHT_isconnected`
reports a connection, the "Connected" line is logged and the flag is
cleared (lines 831-834). `DHT_isconnected` at iteration `n` is an
oracle; `connected_log_count` counts emissions of the log line. -/

structure LoopState where
  waiting_for_dht_connection : Bool
  connected_log_count : Nat
deriving Repr, DecidableEq

/-- One iteration of the connection-state part of the main loop
(lines 831-834). -/
def loop_iter (is_connected : Bool) (s : LoopState) : LoopState :=
  if s.waiting_for_dht_connection && is_connected then
    { waiting_for_dht_connection := false,
      connected_log_count := s.connected_log_count + 1 }
  else s

/-- The loop state after `n` iterations of the main loop, with
`dht_connected k` the oracle value of `DHT_isconnected` at iteration
`k`. Iteration starts from line 810's initialization. -/
def loop_run (dht_connected : Nat → Bool) : Nat → LoopState
  | 0 => { waiting_for_dht_connection := true, connected_log_count := 0 }
  | n + 1 => loop_iter (dht_connected n) (loop_run dht_connected n)

/-! ## Theorems -/

/-- C1, counterexample: the claim "a configured port p is accepted iff
1 ≤ p ≤ 65535" fails at the relay-port check for p = 65537: the value
is truncated into a `uint16_t` slot (becoming 1) before the range check,
so it is accepted and port 1 is collected, although 65537 > 65535. -/
theorem relay_port_trunc_counterexample :
    relay_port_accepted 65537 = true
    ∧ parse_tcp_relay_ports_config (.array [.num 65537]) = [1]
    ∧ ¬((1:Int) ≤ 65537 ∧ (65537:Int) ≤ 65535) := by
  refine ⟨by decide, by decide, by decide⟩

/-- C1, amended: the listen-port check in `main` accepts p iff
1 ≤ p ≤ 65535; the relay-port check accepts p iff the value truncated
to 16 bits (p mod 2^16) lies in [1,65535], i.e. iff p mod 2^16 ≠ 0.
In particular p = 0 and p = 65536 are rejected at both checks. -/
theorem port_checks_amended (p : Int) :
    (listen_port_ok p = true ↔ (1 ≤ p ∧ p ≤ 65535))
    ∧ (relay_port_accepted p = true ↔ (1 ≤ p.emod 65536 ∧ p.emod 65536 ≤ 65535))
    ∧ listen_port_ok 0 = false ∧ listen_port_ok 65536 = false
    ∧ relay_port_accepted 0 = false ∧ relay_port_accepted 65536 = false := by
  have h0 : (0:Int) ≤ p.emod 65536 := Int.emod_nonneg p (by norm_num)
  have h1 : ((p.emod 65536).toNat : Int) = p.emod 65536 := Int.toNat_of_nonneg h0
  refine ⟨?_, ?_, by decide, by decide, by decide, by decide⟩
  · simp [listen_port_ok, MIN_ALLOWED_PORT, MAX_ALLOWED_PORT]
  · simp [relay_port_accepted, to_uint16, MIN_ALLOWED_PORT, MAX_ALLOWED_PORT, h1]

/-- C1, witness for the amended theorem: the default port 33445. -/
theorem port_checks_amended_witness :
    (listen_port_ok 33445 = true ↔ ((1:Int) ≤ 33445 ∧ (33445:Int) ≤ 65535))
    ∧ (relay_port_accepted 33445 = true
        ↔ (1 ≤ (33445:Int).emod 65536 ∧ (33445:Int).emod 65536 ≤ 65535))
    ∧ listen_port_ok 0 = false ∧ listen_port_ok 65536 = false
    ∧ relay_port_accepted 0 = false ∧ relay_port_accepted 65536 = false :=
  port_checks_amended 33445

/-- C3, counterexample: the claim "a key file of any length other than
exactly `public_key_length + secret_key_length` bytes is a fatal read
error" fails for a longer file: with 32-byte keys, a 65-byte file is
loaded successfully (`fread` returns the requested 64 bytes), the
identity being the first 64 bytes. -/
theorem manage_keys_long_file_counterexample :
    (manage_keys 32 32 true 0 (some (List.replicate 65 7))
        { self_public_key := List.replicate 32 1,
          self_secret_key := List.replicate 32 2 }).ret = 1
    ∧ (List.replicate 65 (7:Nat)).length ≠ 32 + 32 := by
  refine ⟨by decide, by decide⟩

/-- C3, amended: with the key file present, `manage_keys` succeeds iff
the file holds at least `public_key_length + secret_key_length` bytes
(`fread` then returns the full requested count); on success the loaded
identity is the first `pubLen` bytes and the following `secLen` bytes;
any shorter file is a fatal read error after which the identity is
untouched (no partial identity is loaded) and the file unchanged. -/
theorem manage_keys_read_amended (pubLen secLen : Nat) (wok : Bool) (wcap : Nat)
    (contents : List Nat) (dht : DHTKeys) :
    ((manage_keys pubLen secLen wok wcap (some contents) dht).ret = 1
        ↔ pubLen + secLen ≤ contents.length)
    ∧ ((manage_keys pubLen secLen wok wcap (some contents) dht).ret = 1
        ∨ (manage_keys pubLen secLen wok wcap (some contents) dht).ret = 0)
    ∧ ((manage_keys pubLen secLen wok wcap (some contents) dht).ret = 0 →
        (manage_keys pubLen secLen wok wcap (some contents) dht).dht = dht)
    ∧ ((manage_keys pubLen secLen wok wcap (some contents) dht).ret = 1 →
        (manage_keys pubLen secLen wok wcap (some contents) dht).dht
          = { self_public_key := contents.take pubLen,
              self_secret_key := (contents.drop pubLen).take secLen })
    ∧ (manage_keys pubLen secLen wok wcap (some contents) dht).file = some contents := by
  by_cases h : pubLen + secLen ≤ contents.length
  · have hmin : min contents.length (pubLen + secLen) = pubLen + secLen :=
      Nat.min_eq_right h
    simp [manage_keys, hmin, h]
  · have hmin : min contents.length (pubLen + secLen) ≠ pubLen + secLen := by
      omega
    simp [manage_keys, hmin, h]

/-- C3, witness for the amended theorem: a 63-byte file (one byte short
of the 64 expected with 32-byte keys) fails to load and the identity is
untouched; a 64-byte file loads. -/
theorem manage_keys_read_amended_witness :
    (manage_keys 32 32 true 0 (some (List.replicate 63 5))
        { self_public_key := [1], self_secret_key := [2] }).dht
      = { self_public_key := [1], self_secret_key := [2] }
    ∧ (manage_keys 32 32 true 0 (some (List.replicate 64 9))
        { self_public_key := [1], self_secret_key := [2] }).ret = 1 :=
  ⟨(manage_keys_read_amended 32 32 true 0 (List.replicate 63 5)
      { self_public_key := [1], self_secret_key := [2] }).2.2.1 (by decide),
   (manage_keys_read_amended 32 32 true 0 (List.replicate 64 9)
      { self_public_key := [1], self_secret_key := [2] }).1.mpr (by decide)⟩

/-- C4: identity round-trip. When no key file exists, `manage_keys`
(with the write succeeding) returns success and persists the public key
followed by the secret key; a subsequent `manage_keys` run on the
resulting file succeeds and loads a keypair bit-for-bit equal to the
original, whatever identity the fresh run started from. -/
theorem manage_keys_roundtrip (pubLen secLen cap cap2 : Nat) (wok2 : Bool)
    (dht dht2 : DHTKeys)
    (hp : dht.self_public_key.length = pubLen)
    (hs : dht.self_secret_key.length = secLen)
    (hcap : pubLen + secLen ≤ cap) :
    (manage_keys pubLen secLen true cap none dht).ret = 1
    ∧ (manage_keys pubLen secLen true cap none dht).file
        = some (dht.self_public_key ++ dht.self_secret_key)
    ∧ (manage_keys pubLen secLen wok2 cap2
         ((manage_keys pubLen secLen true cap none dht).file) dht2).ret = 1
    ∧ (manage_keys pubLen secLen wok2 cap2
         ((manage_keys pubLen secLen true cap none dht).file) dht2).dht
        = { self_public_key := dht.self_public_key,
            self_secret_key := dht.self_secret_key } := by
  have htp : dht.self_public_key.take pubLen = dht.self_public_key := by
    rw [← hp]; exact List.take_length _
  have hts : dht.self_secret_key.take secLen = dht.self_secret_key := by
    rw [← hs]; exact List.take_length _
  have hmin : min cap (pubLen + secLen) = pubLen + secLen := Nat.min_eq_right hcap
  have hfile : (manage_keys pubLen secLen true cap none dht).file
      = some (dht.self_public_key ++ dht.self_secret_key) := by
    simp [manage_keys, hmin, htp, hts]
  have hlen : (dht.self_public_key ++ dht.self_secret_key).length = pubLen + secLen := by
    simp [hp, hs]
  have htake : (dht.self_public_key ++ dht.self_secret_key).take pubLen
      = dht.self_public_key := by
    rw [← hp]; exact List.take_left _ _
  have hdrop : (dht.self_public_key ++ dht.self_secret_key).drop pubLen
      = dht.self_secret_key := by
    rw [← hp]; exact List.drop_left _ _
  refine ⟨?_, hfile, ?_, ?_⟩
  · simp [manage_keys, hmin, htp, hts]
  · rw [hfile]; simp [manage_keys, hlen]
  · rw [hfile]; simp [manage_keys, hlen, htake, hdrop, hts]

/-- C4, witness: a concrete 32+32-byte identity generated with no key
file present is reloaded bit-for-bit by a fresh run on the written
file. -/
theorem manage_keys_roundtrip_witness :
    (manage_keys 32 32 false 0
        ((manage_keys 32 32 true 64 none
            { self_public_key := List.replicate 32 1,
              self_secret_key := List.replicate 32 2 }).file)
        { self_public_key := [], self_secret_key := [] }).dht
      = { self_public_key := List.replicate 32 1,
          self_secret_key := List.replicate 32 2 } :=
  (manage_keys_roundtrip 32 32 64 0 false
      { self_public_key := List.replicate 32 1,
        self_secret_key := List.replicate 32 2 }
      { self_public_key := [], self_secret_key := [] }
      (by decide) (by decide) (by decide)).2.2.2

/-- C2: `bootstrap_from_config` returns 1 whenever the settings file
itself parses, whatever becomes of the entries; a missing
`bootstrap_nodes` setting or an empty list yields no processed entries
and still succeeds; entries are processed one at a time in declaration
order, each independently of the others (a failure skips only its own
entry); and the per-entry checks fire in the fixed source order:
missing `public_key`, then missing `port`, then missing `address`, then
public-key hex length ≠ 2 × key size, then port outside [1,65535], then
address-resolution failure (via the engine, given the IPv6 preference);
an entry passing them all is added. -/
theorem bootstrap_spec (pubKeyLen : Nat) (resolves : String → Bool → Bool)
    (e6 : Bool) (s : NodesSetting) (node : NodeEntry) (nodes : List NodeEntry) :
    (bootstrap_from_config pubKeyLen resolves e6 (some s)).1 = 1
    ∧ (bootstrap_from_config pubKeyLen resolves e6 (some .absent)).2 = []
    ∧ (bootstrap_from_config pubKeyLen resolves e6 (some (.present []))).2 = []
    ∧ (bootstrap_from_config pubKeyLen resolves e6 (some (.present (node :: nodes)))).2
        = process_node pubKeyLen resolves e6 node
          :: (bootstrap_from_config pubKeyLen resolves e6 (some (.present nodes))).2
    ∧ (node.public_key = none → process_node pubKeyLen resolves e6 node = .missingPublicKey)
    ∧ (∀ pk, node.public_key = some pk → node.port = none →
        process_node pubKeyLen resolves e6 node = .missingPort)
    ∧ (∀ pk p, node.public_key = some pk → node.port = some p → node.address = none →
        process_node pubKeyLen resolves e6 node = .missingAddress)
    ∧ (∀ pk p a, node = ⟨some pk, some p, some a⟩ → pk.length ≠ pubKeyLen * 2 →
        process_node pubKeyLen resolves e6 node = .badPublicKeyLength)
    ∧ (∀ pk p a, node = ⟨some pk, some p, some a⟩ → pk.length = pubKeyLen * 2 →
        (p < MIN_ALLOWED_PORT ∨ p > MAX_ALLOWED_PORT) →
        process_node pubKeyLen resolves e6 node = .badPort)
    ∧ (∀ pk p a, node = ⟨some pk, some p, some a⟩ → pk.length = pubKeyLen * 2 →
        MIN_ALLOWED_PORT ≤ p → p ≤ MAX_ALLOWED_PORT → resolves a e6 = false →
        process_node pubKeyLen resolves e6 node = .addressUnresolved)
    ∧ (∀ pk p a, node = ⟨some pk, some p, some a⟩ → pk.length = pubKeyLen * 2 →
        MIN_ALLOWED_PORT ≤ p → p ≤ MAX_ALLOWED_PORT → resolves a e6 = true →
        process_node pubKeyLen resolves e6 node = .added) := by
  refine ⟨by cases s <;> rfl, rfl, rfl, rfl, ?_, ?_, ?_, ?_, ?_, ?_, ?_⟩
  · intro h; simp [process_node, h]
  · intro pk h1 h2; simp [process_node, h1, h2]
  · intro pk p h1 h2 h3; simp [process_node, h1, h2, h3]
  · intro pk p a hnode hlen; subst hnode; simp [process_node, hlen]
  · intro pk p a hnode hlen hrange; subst hnode
    simp [process_node, hlen, MIN_ALLOWED_PORT, MAX_ALLOWED_PORT] at hrange ⊢
    omega
  · intro pk p a hnode hlen h1 h2 hres; subst hnode
    simp [process_node, hlen, MIN_ALLOWED_PORT, MAX_ALLOWED_PORT, hres] at h1 h2 ⊢
    constructor <;> omega
  · intro pk p a hnode hlen h1 h2 hres; subst hnode
    simp [process_node, hlen, MIN_ALLOWED_PORT, MAX_ALLOWED_PORT, hres] at h1 h2 ⊢
    constructor <;> omega

/-- C2, witness: a two-entry list whose first entry has a public key of
the wrong hex length (63 characters instead of 64 for 32-byte keys)
still yields overall success; the wrong-length entry itself is skipped
with the hex-length outcome. -/
theorem bootstrap_spec_witness :
    (bootstrap_from_config 32 (fun _ _ => true) true
       (some (.present
         [{ public_key := some (String.mk (List.replicate 63 'a')),
            port := some 33445, address := some "node.example" },
          { public_key := some (String.mk (List.replicate 64 'a')),
            port := some 33445, address := some "node.example" }]))).1 = 1
    ∧ process_node 32 (fun _ _ => true) true
        { public_key := some (String.mk (List.replicate 63 'a')),
          port := some 33445, address := some "node.example" }
        = .badPublicKeyLength :=
  ⟨(bootstrap_spec 32 (fun _ _ => true) true
      (.present
        [{ public_key := some (String.mk (List.replicate 63 'a')),
           port := some 33445, address := some "node.example" },
         { public_key := some (String.mk (List.replicate 64 'a')),
           port := some 33445, address := some "node.example" }])
      { public_key := none, port := none, address := none } []).1,
   (bootstrap_spec 32 (fun _ _ => true) true .absent
      { public_key := some (String.mk (List.replicate 63 'a')),
        port := some 33445, address := some "node.example" }
      []).2.2.2.2.2.2.2.1 (String.mk (List.replicate 63 'a')) 33445 "node.example"
      rfl (by decide)⟩

/-- C5, counterexample: a configuration whose `tcp_relay_ports` setting
is present but not an array is not a hard parse failure:
`get_general_config` still returns success (1) — it records zero relay
ports with no default substituted. -/
theorem relay_wrong_type_counterexample :
    (get_general_config_writes
        (some { emptyConfigFile with tcp_relay_ports := .notArray })).1 = 1
    ∧ (get_general_config 256
        (some { emptyConfigFile with tcp_relay_ports := .notArray })).isSome = true
    ∧ parse_tcp_relay_ports_config PortsSetting.notArray = [] := by
  refine ⟨rfl, by decide, rfl⟩

/-- C5, amended: a present-but-wrong-type `tcp_relay_ports` is treated
specially — no silent default is substituted (the absent setting gets
the default list {443, 3389, 33445}, the wrong-type setting gets zero
ports) — but configuration loading itself still succeeds; startup then
fails at `main`'s relay gate exactly when TCP relay is enabled. -/
theorem relay_wrong_type_amended (maxMotd : Nat) (cfg : ConfigFile)
    (hty : cfg.tcp_relay_ports = .notArray) :
    (get_general_config_writes (some cfg)).1 = 1
    ∧ (∃ g, get_general_config maxMotd (some cfg) = some g
         ∧ g.tcp_relay_ports = []
         ∧ g.enable_tcp_relay = cfg.enable_tcp_relay.getD DEFAULT_ENABLE_TCP_RELAY
         ∧ main_tcp_relay_check g.enable_tcp_relay g.tcp_relay_ports.length
             = !g.enable_tcp_relay)
    ∧ parse_tcp_relay_ports_config PortsSetting.notArray = []
    ∧ parse_tcp_relay_ports_config PortsSetting.absent = [443, 3389, 33445] := by
  refine ⟨rfl, ⟨_, rfl, ?_, ?_, ?_⟩, rfl, rfl⟩
  · simp only [hty, parse_tcp_relay_ports_config]
    split <;> rfl
  · rfl
  · simp [main_tcp_relay_check, hty, parse_tcp_relay_ports_config]

/-- C5, witness for the amended theorem: the empty configuration file
with `tcp_relay_ports` set to a non-array value. -/
theorem relay_wrong_type_amended_witness :
    (get_general_config_writes
        (some { emptyConfigFile with tcp_relay_ports := .notArray })).1 = 1
    ∧ (get_general_config 256
        (some { emptyConfigFile with tcp_relay_ports := .notArray })).isSome = true
    ∧ parse_tcp_relay_ports_config PortsSetting.notArray = []
    ∧ parse_tcp_relay_ports_config PortsSetting.absent = [443, 3389, 33445] := by
  obtain ⟨h1, ⟨g, hg, hports, hen, hmain⟩, h3, h4⟩ :=
    relay_wrong_type_amended 256
      { emptyConfigFile with tcp_relay_ports := .notArray } rfl
  exact ⟨h1, by rw [hg]; rfl, h3, h4⟩

/-- C6: when `enable_motd` resolves true and the `motd` setting is
absent, `get_general_config` substitutes the documented default MOTD
text; and for any looked-up text, the stored MOTD buffer ends in the
null terminator and its total length (terminator included) is at most
`MAX_MOTD_LENGTH` — clamping preserves termination. -/
theorem motd_spec (maxMotd : Nat) (cfg : ConfigFile)
    (hmax : 1 ≤ maxMotd)
    (hen : cfg.enable_motd.getD DEFAULT_ENABLE_MOTD = true)
    (habs : cfg.motd = none) :
    (∃ g, get_general_config maxMotd (some cfg) = some g
        ∧ g.enable_motd = true
        ∧ g.motd = some (motd_value maxMotd DEFAULT_MOTD))
    ∧ (∀ s, (motd_value maxMotd s).length ≤ maxMotd)
    ∧ (∀ s, (motd_value maxMotd s).getLast? = some (Char.ofNat 0)) := by
  refine ⟨⟨_, rfl, by simp [hen], by simp [hen, habs]⟩, ?_, ?_⟩
  · intro s
    have hls : s.toList.length = s.length := rfl
    by_cases h : s.length + 1 > maxMotd <;>
      simp [motd_value, h, hls] <;> omega
  · intro s
    simp [motd_value]

/-- C6, witness: the empty configuration file (MOTD enabled by default,
`motd` absent) with `MAX_MOTD_LENGTH = 256`. -/
theorem motd_spec_witness :
    (get_general_config 256 (some emptyConfigFile)).isSome = true
    ∧ (motd_value 256 (String.mk (List.replicate 300 'a'))).length ≤ 256
    ∧ (motd_value 256 (String.mk (List.replicate 300 'a'))).getLast?
        = some (Char.ofNat 0) := by
  obtain ⟨⟨g, hg, h1, h2⟩, hlen, hlast⟩ :=
    motd_spec 256 emptyConfigFile (by decide) (by decide) rfl
  exact ⟨by rw [hg]; rfl, hlen _, hlast _⟩

/-- The connected-log counter always reads the state: 0 while still
waiting, 1 once the transition has happened. -/
lemma loop_run_count_eq (f : Nat → Bool) (n : Nat) :
    (loop_run f n).connected_log_count
      = (if (loop_run f n).waiting_for_dht_connection then 0 else 1) := by
  induction n with
  | zero => rfl
  | succ n ih =>
      cases hw : (loop_run f n).waiting_for_dht_connection <;>
        cases hc : f n <;>
          simp [loop_run, loop_iter, hw, hc, ih]

/-- Once the waiting flag is cleared it stays cleared. -/
lemma loop_run_waiting_mono (f : Nat → Bool) {m n : Nat} (hmn : m ≤ n)
    (hm : (loop_run f m).waiting_for_dht_connection = false) :
    (loop_run f n).waiting_for_dht_connection = false := by
  induction n, hmn using Nat.le_induction with
  | base => exact hm
  | succ n hmn ih => simp [loop_run, loop_iter, ih]

/-- C7: the lifecycle connection state is monotone — once the loop has
left the awaiting-connection state it never returns to it in any later
iteration — the connected log line is emitted at most once across the
whole run, and it has been emitted exactly once precisely when the
transition has happened. -/
theorem lifecycle_state (f : Nat → Bool) (m n : Nat) (hmn : m ≤ n) :
    ((loop_run f m).waiting_for_dht_connection = false →
       (loop_run f n).waiting_for_dht_connection = false)
    ∧ (loop_run f n).connected_log_count ≤ 1
    ∧ ((loop_run f n).connected_log_count = 1
         ↔ (loop_run f n).waiting_for_dht_connection = false) := by
  have inv := loop_run_count_eq f n
  refine ⟨fun hm => loop_run_waiting_mono f hmn hm, ?_, ?_⟩
  · rw [inv]; split <;> simp
  · rw [inv]
    cases hw : (loop_run f n).waiting_for_dht_connection <;> simp [hw]

/-- C7, witness: a run whose engine reports a connection from the first
iteration on — after 3 iterations the log has been emitted exactly once
and the state never reverts. -/
theorem lifecycle_state_witness :
    ((loop_run (fun _ => true) 1).waiting_for_dht_connection = false →
       (loop_run (fun _ => true) 3).waiting_for_dht_connection = false)
    ∧ (loop_run (fun _ => true) 3).connected_log_count ≤ 1
    ∧ ((loop_run (fun _ => true) 3).connected_log_count = 1
         ↔ (loop_run (fun _ => true) 3).waiting_for_dht_connection = false) :=
  lifecycle_state (fun _ => true) 1 3 (by decide)

/-- C8: at daemonization, the parent (positive fork result) writes the
child's pid into the already-open PID file handle and exits 0; the
child (zero fork result), when session creation and the directory
change succeed, continues as the service instance with its working
directory changed to "/", a new session, and its standard streams
closed iff the stdout log backend was not selected; fork failure,
session-creation failure and directory-change failure each halt startup
with exit code 1. -/
theorem daemonize_spec (fork_result : Int) (setsid_ok chdir_ok : Bool)
    (lb : LogBackend) :
    (0 < fork_result →
       daemonize fork_result setsid_ok chdir_ok lb
         = { exit_code := some 0, pid_written := some fork_result,
             session_created := false, workdir_changed := false,
             streams_closed := false })
    ∧ (fork_result < 0 →
        (daemonize fork_result setsid_ok chdir_ok lb).exit_code = some 1)
    ∧ (fork_result = 0 → setsid_ok = false →
        (daemonize fork_result setsid_ok chdir_ok lb).exit_code = some 1)
    ∧ (fork_result = 0 → setsid_ok = true → chdir_ok = false →
        (daemonize fork_result setsid_ok chdir_ok lb).exit_code = some 1)
    ∧ (fork_result = 0 → setsid_ok = true → chdir_ok = true →
        daemonize fork_result setsid_ok chdir_ok lb
          = { exit_code := none, pid_written := none, session_created := true,
              workdir_changed := true,
              streams_closed := lb != LogBackend.stdout }) := by
  refine ⟨?_, ?_, ?_, ?_, ?_⟩
  · intro h; simp [daemonize, h]
  · intro h
    have h1 : ¬(0 < fork_result) := by omega
    simp [daemonize, h, h1]
  · intro h hs; subst h; subst hs; simp [daemonize]
  · intro h hs hc; subst h; subst hs; subst hc; simp [daemonize]
  · intro h hs hc; subst h; subst hs; subst hc; simp [daemonize]

/-- C8, witness: a parent with child pid 5 writes that pid and exits 0;
a successful child on the syslog backend continues with its streams
closed. -/
theorem daemonize_spec_witness :
    daemonize 5 true true LogBackend.syslog
      = { exit_code := some 0, pid_written := some 5,
          session_created := false, workdir_changed := false,
          streams_closed := false }
    ∧ daemonize 0 true true LogBackend.syslog
        = { exit_code := none, pid_written := none, session_created := true,
            workdir_changed := true,
            streams_closed := LogBackend.syslog != LogBackend.stdout } :=
  ⟨(daemonize_spec 5 true true LogBackend.syslog).1 (by decide),
   (daemonize_spec 0 true true LogBackend.syslog).2.2.2.2 rfl rfl rfl⟩

/-- C9: networking construction makes at most two attempts; a second
(fallback) attempt happens exactly when the first attempt failed with
both `enable_ipv6` and `enable_ipv4_fallback` set, and it is made with
IPv6 disabled; a first-attempt success means a single attempt; whenever
no network core is obtained, startup terminates with exit code 1; and
construction fails overall iff the configured attempt fails and the
fallback (when configured) fails too. -/
theorem net_init_spec (e6 fb : Bool) (ok : Bool → Bool) :
    (net_init e6 fb ok).attempts.length ≤ 2
    ∧ ((net_init e6 fb ok).attempts.length = 2
        ↔ (ok e6 = false ∧ e6 = true ∧ fb = true))
    ∧ ((net_init e6 fb ok).attempts.length = 2 →
        (net_init e6 fb ok).attempts = [true, false])
    ∧ (ok e6 = true →
        (net_init e6 fb ok).attempts = [e6]
        ∧ (net_init e6 fb ok).success = true
        ∧ (net_init e6 fb ok).exit_code = none)
    ∧ ((net_init e6 fb ok).success = false →
        (net_init e6 fb ok).exit_code = some 1)
    ∧ ((net_init e6 fb ok).success = false
        ↔ (ok e6 = false ∧ (e6 = true → fb = true → ok false = false))) := by
  cases he : ok e6 <;> cases hf : ok false <;> cases e6 <;> cases fb <;>
    simp [net_init, he, hf]

/-- C9, witness: IPv6 configured with IPv4 fallback and an engine that
rejects both families — exactly two attempts (IPv6 then IPv4) and exit
code 1. -/
theorem net_init_spec_witness :
    (net_init true true (fun _ => false)).attempts = [true, false]
    ∧ (net_init true true (fun _ => false)).exit_code = some 1 :=
  ⟨(net_init_spec true true (fun _ => false)).2.2.1 (by decide),
   (net_init_spec true true (fun _ => false)).2.2.2.2.1 (by decide)⟩

/-- C10: `get_general_config` fails (returns 0) exactly when the
configuration file cannot be read or parsed, and on that failure path
it has assigned none of its out-parameters — the write trace is empty;
equivalently, the snapshot-returning model yields `none` exactly on
parse failure. -/
theorem get_general_config_atomicity (maxMotd : Nat) (file : Option ConfigFile) :
    ((get_general_config_writes file).1 = 0 ↔ file = none)
    ∧ ((get_general_config_writes file).1 = 0 →
        (get_general_config_writes file).2 = [])
    ∧ (get_general_config maxMotd file = none ↔ file = none) := by
  cases file <;> simp [get_general_config_writes, get_general_config]

/-- C10, witness: an unparseable configuration file — failure return
with an empty write trace. -/
theorem get_general_config_atomicity_witness :
    (get_general_config_writes (none : Option ConfigFile)).1 = 0
    ∧ (get_general_config_writes (none : Option ConfigFile)).2 = []
    ∧ get_general_config 256 (none : Option ConfigFile) = none :=
  ⟨(get_general_config_atomicity 256 none).1.mpr rfl,
   (get_general_config_atomicity 256 none).2.1
     ((get_general_config_atomicity 256 none).1.mpr rfl),
   (get_general_config_atomicity 256 none).2.2.mpr rfl⟩

end ToxBootstrapd
